import Mathlib

/-!
# ZenHub webhook handler (policybot/handlers/zenhubwebhook/handler.go)

A shallow embedding of `handler.ServeHTTP` and `handler.storePipeline`.

* The three collaborators of the handler (cache, store, lifecycle manager) are
  interfaces whose implementations live in other packages. They are taken as
  parameters: arbitrary functions over an abstract world state `σ` that return
  their Go result together with the next world.
* Every collaborator invocation is recorded in a trace (`HState.calls`), and every
  `scope.Errorf` / `scope.Infof` in a log (`HState.logs`).
* Go pointers that may be nil are `Option`; a Go `error` is `Option GoError`.
* Go `int` is the 64-bit `int` (`intSize = 64`), represented by `Int`.
-/

namespace Zenhubwebhook

/-! ## Go runtime: integers, strings, strconv

`strconv.Atoi` belongs to the Go standard library. It is transcribed from the library
source (`strconv/atoi.go`), specialised to the base 10 and bit size 0 that `Atoi` passes
down. Its documented contract: on a syntax error the value is 0; when the value does not
fit, the error is `ErrRange` and the value is the bound of the type with the same sign. -/

/-- Width of the Go `int` type (`strconv.IntSize`) on the modelled platform. -/
def intSize : Nat := 64

/-- Range of the Go `int` type. -/
def isInt (n : Int) : Prop := -(2 : Int) ^ 63 ≤ n ∧ n < (2 : Int) ^ 63

instance (n : Int) : Decidable (isInt n) := by
  unfold isInt; infer_instance

/-- Go conversion `int64(x)`: reduction to the two's complement 64-bit range. -/
def int64 (n : Int) : Int := (n + (2 : Int) ^ 63) % (2 : Int) ^ 64 - (2 : Int) ^ 63

/-- The bytes of a Go string, as numbers below 256. Form values are represented by `String`,
so the bytes are those of the UTF-8 encoding. -/
def bytes (s : String) : List Nat :=
  (s.data.flatMap String.utf8EncodeChar).map UInt8.toNat

/-- The two sentinel errors of package strconv. -/
inductive ErrKind where
  | ErrSyntax
  | ErrRange
deriving DecidableEq, Repr

/-- Go `strconv.NumError`. -/
structure NumError where
  Func : String
  Num : String
  Err : ErrKind
deriving DecidableEq, Repr

def syntaxError (fn str : String) : NumError := ⟨fn, str, ErrKind.ErrSyntax⟩

def rangeError (fn str : String) : NumError := ⟨fn, str, ErrKind.ErrRange⟩

def maxUint64 : Nat := 2 ^ 64 - 1

/-- Go `strconv.lower`: `c | ('x' - 'X')`. -/
def lower (c : Nat) : Nat := c ||| 32

/-- The `switch` that computes the digit value `d` of byte `c` in `strconv.ParseUint`
(with `base0 = false`); `none` is the `default:` branch. -/
def digitValue (c : Nat) : Option Nat :=
  if 48 ≤ c ∧ c ≤ 57 then some (c - 48)
  else if 97 ≤ lower c ∧ lower c ≤ 122 then some (lower c - 97 + 10)
  else none

/-- The `for _, c := range []byte(s)` loop of `strconv.ParseUint` for base 10 and
bit size 64: `cutoff = maxUint64/10 + 1`, `maxVal = 1<<64 - 1`, `n` is a `uint64`. -/
def parseUintLoop (s0 : String) : List Nat → Nat → Nat × Option NumError
  | [], n => (n, none)
  | c :: rest, n =>
    match digitValue c with
    | none => (0, some (syntaxError "ParseUint" s0))
    | some d =>
      if d ≥ 10 then (0, some (syntaxError "ParseUint" s0))
      else if n ≥ maxUint64 / 10 + 1 then (maxUint64, some (rangeError "ParseUint" s0))
      else
        let n10 := (n * 10) % 2 ^ 64
        let n1 := (n10 + d) % 2 ^ 64
        if n1 < n10 ∨ n1 > maxUint64 then (maxUint64, some (rangeError "ParseUint" s0))
        else parseUintLoop s0 rest n1

/-- Go `strconv.ParseUint(s, 10, 0)`; `s0` is the string and `s` its bytes. -/
def ParseUint (s0 : String) (s : List Nat) : Nat × Option NumError :=
  if s = [] then (0, some (syntaxError "ParseUint" s0))
  else parseUintLoop s0 s 0

/-- Go `strconv.ParseInt(s, 10, 0)`; `s0` is the string and `b` its bytes. A syntax error
of `ParseUint` is returned with value 0; otherwise (no error, or a range error, for which
`un` is `maxUint64`) the range checks against `cutoff = 1 << 63` follow. -/
def ParseInt (s0 : String) (b : List Nat) : Int × Option NumError :=
  if b = [] then (0, some (syntaxError "ParseInt" s0))
  else
    let neg : Bool := b.head? = some 45
    let signed : Bool := b.head? = some 43 ∨ b.head? = some 45
    let r := ParseUint (if signed then s0.drop 1 else s0) (if signed then b.tail else b)
    let un := r.1
    let cutoff : Nat := 2 ^ 63
    match r.2.filter (fun e => e.Err ≠ ErrKind.ErrRange) with
    | some e => (0, some ⟨"ParseInt", s0, e.Err⟩)
    | none =>
      if neg = false ∧ un ≥ cutoff then ((cutoff : Int) - 1, some (rangeError "ParseInt" s0))
      else if neg = true ∧ un > cutoff then (-(cutoff : Int), some (rangeError "ParseInt" s0))
      else
        let n := int64 (un : Int)
        (if neg then int64 (-n) else n, none)

/-- The digit loop of the fast path of `strconv.Atoi`; `none` is the early
`return 0, syntaxError`. The byte subtraction `ch -= 48` wraps modulo 256. -/
def atoiLoop : List Nat → Int → Option Int
  | [], n => some n
  | ch :: rest, n =>
    let ch1 := (ch + 256 - 48) % 256
    if ch1 > 9 then none else atoiLoop rest (n * 10 + (ch1 : Int))

/-- Go `strconv.Atoi`: the parsed value and the error. -/
def Atoi (s0 : String) : Int × Option NumError :=
  let b := bytes s0
  let sLen := b.length
  if (intSize = 32 ∧ 0 < sLen ∧ sLen < 10) ∨ (intSize = 64 ∧ 0 < sLen ∧ sLen < 19) then
    let signed := b.head? = some 45 ∨ b.head? = some 43
    let s := if signed then b.tail else b
    if signed ∧ s.length < 1 then (0, some (syntaxError "Atoi" s0))
    else
      match atoiLoop s 0 with
      | none => (0, some (syntaxError "Atoi" s0))
      | some n => (if b.head? = some 45 then -n else n, none)
  else
    let r := ParseInt s0 b
    (r.1, r.2.map (fun e => ⟨"Atoi", e.Num, e.Err⟩))

/-- Go `url.Values`, a `map[string][]string`, as an association list. -/
abbrev Values := List (String × List String)

/-- Go `url.Values.Get`: the first value of the key, or the empty string. -/
def Values.Get (v : Values) (key : String) : String :=
  match v.lookup key with
  | some (x :: _) => x
  | _ => ""

/-! ## Collaborator types -/

/-- A Go `context.Context`; the handler only forwards it. -/
structure Context where
  id : Nat
deriving DecidableEq, Repr

/-- A Go `error` value, with the text of its `Error()` method. -/
structure GoError where
  Error : String
deriving DecidableEq, Repr

/-- The part of `storage.Org` the handler reads. -/
structure Org where
  OrgLogin : String
deriving DecidableEq, Repr

/-- The part of `storage.Repo` the handler reads. -/
structure Repo where
  OrgLogin : String
  RepoName : String
deriving DecidableEq, Repr

/-- A `storage.Issue`; the handler passes it on without reading it. -/
structure Issue where
  OrgLogin : String
  RepoName : String
  IssueNumber : Int
deriving DecidableEq, Repr

/-- Go `storage.IssuePipeline`, as built by the handler. -/
structure IssuePipeline where
  OrgLogin : String
  RepoName : String
  IssueNumber : Int
  Pipeline : String
deriving DecidableEq, Repr

/-- The methods of `*cache.Cache` used by the handler. -/
structure Cache (σ : Type) where
  ReadOrg : σ → Context → String → (Option Org × Option GoError) × σ
  ReadRepo : σ → Context → String → String → (Option Repo × Option GoError) × σ
  ReadIssue : σ → Context → String → String → Int → (Option Issue × Option GoError) × σ

/-- The method of `storage.Store` used by the handler. -/
structure Store (σ : Type) where
  WriteIssuePipelines : σ → Context → List IssuePipeline → Option GoError × σ

/-- The method of `*lifecyclemgr.LifecycleMgr` used by the handler. -/
structure LifecycleMgr (σ : Type) where
  ManageIssue : σ → Context → Option Issue → Option GoError × σ

/-- The Go struct `handler`. -/
structure handler (σ : Type) where
  store : Store σ
  cache : Cache σ
  lifecycler : LifecycleMgr σ

/-- One collaborator invocation, with its arguments. -/
inductive Call where
  | ReadOrg (ctx : Context) (orgLogin : String)
  | ReadRepo (ctx : Context) (orgLogin repoName : String)
  | WriteIssuePipelines (ctx : Context) (batch : List IssuePipeline)
  | ReadIssue (ctx : Context) (orgLogin repoName : String) (issueNumber : Int)
  | ManageIssue (ctx : Context) (issue : Option Issue)
deriving DecidableEq, Repr

inductive Level where
  | Error
  | Info
deriving DecidableEq, Repr

/-- The state threaded through the handler: the collaborators' world, the trace of
collaborator calls and the log of the `zenhub` scope. -/
structure HState (σ : Type) where
  world : σ
  calls : List Call
  logs : List (Level × String)

variable {σ : Type}

def Errorf (st : HState σ) (msg : String) : HState σ :=
  ⟨st.world, st.calls, st.logs ++ [(Level.Error, msg)]⟩

def Infof (st : HState σ) (msg : String) : HState σ :=
  ⟨st.world, st.calls, st.logs ++ [(Level.Info, msg)]⟩

/-- Formatting of an `int` by the verb `%d`. -/
def fmtInt (n : Int) : String := toString n

def callReadOrg (h : handler σ) (st : HState σ) (ctx : Context) (orgLogin : String) :
    (Option Org × Option GoError) × HState σ :=
  let r := h.cache.ReadOrg st.world ctx orgLogin
  (r.1, ⟨r.2, st.calls ++ [Call.ReadOrg ctx orgLogin], st.logs⟩)

def callReadRepo (h : handler σ) (st : HState σ) (ctx : Context) (orgLogin repoName : String) :
    (Option Repo × Option GoError) × HState σ :=
  let r := h.cache.ReadRepo st.world ctx orgLogin repoName
  (r.1, ⟨r.2, st.calls ++ [Call.ReadRepo ctx orgLogin repoName], st.logs⟩)

def callWriteIssuePipelines (h : handler σ) (st : HState σ) (ctx : Context)
    (batch : List IssuePipeline) : Option GoError × HState σ :=
  let r := h.store.WriteIssuePipelines st.world ctx batch
  (r.1, ⟨r.2, st.calls ++ [Call.WriteIssuePipelines ctx batch], st.logs⟩)

def callReadIssue (h : handler σ) (st : HState σ) (ctx : Context) (orgLogin repoName : String)
    (issueNumber : Int) : (Option Issue × Option GoError) × HState σ :=
  let r := h.cache.ReadIssue st.world ctx orgLogin repoName issueNumber
  (r.1, ⟨r.2, st.calls ++ [Call.ReadIssue ctx orgLogin repoName issueNumber], st.logs⟩)

def callManageIssue (h : handler σ) (st : HState σ) (ctx : Context) (issue : Option Issue) :
    Option GoError × HState σ :=
  let r := h.lifecycler.ManageIssue st.world ctx issue
  (r.1, ⟨r.2, st.calls ++ [Call.ManageIssue ctx issue], st.logs⟩)

/-! ## The handler -/

/-- Go `handler.storePipeline` (handler.go, lines 65-101). -/
def storePipeline (h : handler σ) (st : HState σ) (context : Context) (orgLogin : String)
    (repoName : String) (issueNumber : Int) (pipeline : String) : HState σ :=
  let ro := callReadOrg h st context orgLogin
  match ro.1.2 with
  | some err =>
    Errorf ro.2 ("Unable to get info on organization " ++ orgLogin ++ ": " ++ err.Error)
  | none =>
  match ro.1.1 with
  | none => Errorf ro.2 ("Organization " ++ orgLogin ++ " was not found")
  | some o =>
  let rr := callReadRepo h ro.2 context o.OrgLogin repoName
  match rr.1.2 with
  | some err =>
    Errorf rr.2 ("Unable to get info on repo " ++ orgLogin ++ "/" ++ repoName ++ ": " ++ err.Error)
  | none =>
  match rr.1.1 with
  | none => Errorf rr.2 ("Repo " ++ orgLogin ++ "/" ++ repoName ++ " was not found")
  | some r =>
  let issuePipeline : IssuePipeline := ⟨r.OrgLogin, r.RepoName, int64 issueNumber, pipeline⟩
  let wr := callWriteIssuePipelines h rr.2 context [issuePipeline]
  let st1 := match wr.1 with
    | some err => Errorf wr.2 ("Unable to write pipeline to storage: " ++ err.Error)
    | none => wr.2
  let ri := callReadIssue h st1 context r.OrgLogin r.RepoName issueNumber
  let st2 := match ri.1.2 with
    | some err =>
      Errorf ri.2 ("Unable to read information on issue " ++ fmtInt issueNumber ++ " in repo "
        ++ r.OrgLogin ++ "/" ++ r.RepoName ++ ": " ++ err.Error)
    | none => ri.2
  (callManageIssue h st2 context ri.1.1).2

/-- The part of `*http.Request` the handler uses: the request context and the
outcome of `ParseForm` (the error, or the populated `Form`). -/
structure Request where
  Context : Context
  ParseForm : Except GoError Values

/-- Go `handler.ServeHTTP` (handler.go, lines 45-63). The response writer is never used. -/
def ServeHTTP (h : handler σ) (st : HState σ) (r : Request) : HState σ :=
  match r.ParseForm with
  | Except.error err => Errorf st ("Unable to parse ZenHub webhook data: " ++ err.Error)
  | Except.ok form =>
    let t := form.Get "type"
    if t = "issue_transfer" ∨ t = "issue_reprioritized" then
      let st1 := Infof st ("Received " ++ t ++ " from ZenHub")
      let num := (Atoi (form.Get "issue_number")).1
      storePipeline h st1 r.Context (form.Get "organization") (form.Get "repo") num
        (form.Get "to_pipeline_name")
    else st

/-! ## Observations on a run -/

/-- The collaborator calls made by one run of `storePipeline`, in order. -/
def callsMade (h : handler σ) (st : HState σ) (context : Context) (orgLogin : String)
    (repoName : String) (issueNumber : Int) (pipeline : String) : List Call :=
  (storePipeline h st context orgLogin repoName issueNumber pipeline).calls.drop st.calls.length

/-- The collaborator calls made by one run of `ServeHTTP`, in order. -/
def callsServed (h : handler σ) (st : HState σ) (r : Request) : List Call :=
  (ServeHTTP h st r).calls.drop st.calls.length

/-- Which collaborator method a call invokes. -/
inductive Kind where
  | ReadOrg
  | ReadRepo
  | WriteIssuePipelines
  | ReadIssue
  | ManageIssue
deriving DecidableEq, Repr

def Call.kind : Call → Kind
  | Call.ReadOrg _ _ => Kind.ReadOrg
  | Call.ReadRepo _ _ _ => Kind.ReadRepo
  | Call.WriteIssuePipelines _ _ => Kind.WriteIssuePipelines
  | Call.ReadIssue _ _ _ _ => Kind.ReadIssue
  | Call.ManageIssue _ _ => Kind.ManageIssue

/-- The order of the collaborator calls in the body of `storePipeline`. -/
def chain : List Kind :=
  [Kind.ReadOrg, Kind.ReadRepo, Kind.WriteIssuePipelines, Kind.ReadIssue, Kind.ManageIssue]

/-- The calls of a trace that invoke the given method. -/
def callsOf (k : Kind) (cs : List Call) : List Call :=
  cs.filter (fun c => decide (c.kind = k))

/-- Calls on the cache (`h.cache`). -/
def Call.onCache (c : Call) : Bool :=
  decide (c.kind = Kind.ReadOrg ∨ c.kind = Kind.ReadRepo ∨ c.kind = Kind.ReadIssue)

/-- Calls on the store (`h.store`). -/
def Call.onStore (c : Call) : Bool := decide (c.kind = Kind.WriteIssuePipelines)

/-- Calls on the lifecycle manager (`h.lifecycler`). -/
def Call.onLifecycler (c : Call) : Bool := decide (c.kind = Kind.ManageIssue)

/-- The batches handed to `WriteIssuePipelines` in a trace. -/
def writtenBatches : List Call → List (List IssuePipeline)
  | [] => []
  | Call.WriteIssuePipelines _ batch :: cs => batch :: writtenBatches cs
  | _ :: cs => writtenBatches cs

/-- The handler `h` with its store replaced by `s`. -/
def withStore (h : handler σ) (s : Store σ) : handler σ := ⟨s, h.cache, h.lifecycler⟩

/-! ## A concrete deployment

The world is the list of records held by the store. The cache knows the
organization `istio` (also spelled `Istio`) and its repository `bots` (also
`Bots`), and the issue `istio/bots#42`. -/

def demoCache : Cache (List IssuePipeline) where
  ReadOrg := fun w _ login =>
    if login = "Istio" ∨ login = "istio" then ((some ⟨"istio"⟩, none), w)
    else if login = "down" then ((none, some ⟨"cache unavailable"⟩), w)
    else ((none, none), w)
  ReadRepo := fun w _ org repo =>
    if org = "istio" ∧ (repo = "Bots" ∨ repo = "bots") then ((some ⟨"istio", "bots"⟩, none), w)
    else if repo = "down" then ((none, some ⟨"cache unavailable"⟩), w)
    else ((none, none), w)
  ReadIssue := fun w _ org repo n =>
    if org = "istio" ∧ repo = "bots" ∧ n = 42 then ((some ⟨"istio", "bots", 42⟩, none), w)
    else ((none, none), w)

def demoStore : Store (List IssuePipeline) where
  WriteIssuePipelines := fun w _ batch => (none, w ++ batch)

/-- A store that applies every write, and then reports a failure. -/
def lossyStore : Store (List IssuePipeline) where
  WriteIssuePipelines := fun w _ batch => (some ⟨"disk full"⟩, w ++ batch)

def demoLifecycler : LifecycleMgr (List IssuePipeline) where
  ManageIssue := fun w _ issue =>
    match issue with
    | some _ => (none, w)
    | none => (some ⟨"no issue"⟩, w)

def demoHandler : handler (List IssuePipeline) := ⟨demoStore, demoCache, demoLifecycler⟩

def demoState : HState (List IssuePipeline) := ⟨[], [], []⟩

def demoCtx : Context := ⟨7⟩

/-- The form `type=issue_transfer&organization=Istio&repo=Bots&issue_number=n&to_pipeline_name=Done`. -/
def demoForm (type issueNumber : String) : Values :=
  [("type", [type]), ("organization", ["Istio"]), ("repo", ["Bots"]),
   ("issue_number", [issueNumber]), ("to_pipeline_name", ["Done"])]

def demoRequest (type issueNumber : String) : Request :=
  ⟨demoCtx, Except.ok (demoForm type issueNumber)⟩

/-- A degraded deployment: every write fails, and the cache answers the issue lookup
with a stale copy together with an error. -/
def flakyHandler : handler (List IssuePipeline) :=
  ⟨⟨fun w _ _ => (some ⟨"disk full"⟩, w)⟩,
   ⟨demoCache.ReadOrg, demoCache.ReadRepo,
    fun w _ org repo n => ((some ⟨org, repo, n⟩, some ⟨"stale"⟩), w)⟩,
   demoLifecycler⟩

/-- The world in which `ReadIssue` runs when organization `o` and repository `r`
resolved: after `ReadOrg`, `ReadRepo` and the write of the one-record batch. -/
def worldAfterWrite (h : handler σ) (st : HState σ) (context : Context) (orgLogin : String)
    (repoName : String) (issueNumber : Int) (pipeline : String) (o : Org) (r : Repo) : σ :=
  (h.store.WriteIssuePipelines
    (h.cache.ReadRepo (h.cache.ReadOrg st.world context orgLogin).2 context o.OrgLogin repoName).2
    context [⟨r.OrgLogin, r.RepoName, int64 issueNumber, pipeline⟩]).2

/-! ## Shape of a run of `storePipeline` -/

theorem storePipeline_org_error (h : handler σ) (st : HState σ) (context : Context)
    (orgLogin repoName : String) (issueNumber : Int) (pipeline : String) (e : GoError)
    (hErr : (h.cache.ReadOrg st.world context orgLogin).1.2 = some e) :
    (storePipeline h st context orgLogin repoName issueNumber pipeline).calls
      = st.calls ++ [Call.ReadOrg context orgLogin] := by
  simp [storePipeline, callReadOrg, hErr, Errorf]

theorem storePipeline_org_absent (h : handler σ) (st : HState σ) (context : Context)
    (orgLogin repoName : String) (issueNumber : Int) (pipeline : String)
    (hNil : (h.cache.ReadOrg st.world context orgLogin).1.1 = none) :
    (storePipeline h st context orgLogin repoName issueNumber pipeline).calls
      = st.calls ++ [Call.ReadOrg context orgLogin] := by
  unfold storePipeline
  cases hE : (h.cache.ReadOrg st.world context orgLogin).1.2 <;>
    simp [callReadOrg, hE, hNil, Errorf]

theorem storePipeline_repo_error (h : handler σ) (st : HState σ) (context : Context)
    (orgLogin repoName : String) (issueNumber : Int) (pipeline : String) (o : Org) (e : GoError)
    (hOrg : (h.cache.ReadOrg st.world context orgLogin).1 = (some o, none))
    (hErr : (h.cache.ReadRepo (h.cache.ReadOrg st.world context orgLogin).2 context
      o.OrgLogin repoName).1.2 = some e) :
    (storePipeline h st context orgLogin repoName issueNumber pipeline).calls
      = st.calls ++ [Call.ReadOrg context orgLogin, Call.ReadRepo context o.OrgLogin repoName] := by
  simp [storePipeline, callReadOrg, callReadRepo, hOrg, hErr, Errorf]

theorem storePipeline_repo_absent (h : handler σ) (st : HState σ) (context : Context)
    (orgLogin repoName : String) (issueNumber : Int) (pipeline : String) (o : Org)
    (hOrg : (h.cache.ReadOrg st.world context orgLogin).1 = (some o, none))
    (hNil : (h.cache.ReadRepo (h.cache.ReadOrg st.world context orgLogin).2 context
      o.OrgLogin repoName).1.1 = none) :
    (storePipeline h st context orgLogin repoName issueNumber pipeline).calls
      = st.calls ++ [Call.ReadOrg context orgLogin, Call.ReadRepo context o.OrgLogin repoName] := by
  unfold storePipeline
  cases hE : (h.cache.ReadRepo (h.cache.ReadOrg st.world context orgLogin).2 context
      o.OrgLogin repoName).1.2 <;>
    simp [callReadOrg, callReadRepo, hOrg, hE, hNil, Errorf]

theorem storePipeline_resolved (h : handler σ) (st : HState σ) (context : Context)
    (orgLogin repoName : String) (issueNumber : Int) (pipeline : String) (o : Org) (r : Repo)
    (hOrg : (h.cache.ReadOrg st.world context orgLogin).1 = (some o, none))
    (hRepo : (h.cache.ReadRepo (h.cache.ReadOrg st.world context orgLogin).2 context
      o.OrgLogin repoName).1 = (some r, none)) :
    (storePipeline h st context orgLogin repoName issueNumber pipeline).calls
      = st.calls ++ [Call.ReadOrg context orgLogin, Call.ReadRepo context o.OrgLogin repoName,
          Call.WriteIssuePipelines context [⟨r.OrgLogin, r.RepoName, int64 issueNumber, pipeline⟩],
          Call.ReadIssue context r.OrgLogin r.RepoName issueNumber,
          Call.ManageIssue context (h.cache.ReadIssue
            (worldAfterWrite h st context orgLogin repoName issueNumber pipeline o r)
            context r.OrgLogin r.RepoName issueNumber).1.1] := by
  unfold storePipeline worldAfterWrite
  simp only [callReadOrg, callReadRepo, hOrg, hRepo]
  cases hW : (h.store.WriteIssuePipelines
    (h.cache.ReadRepo (h.cache.ReadOrg st.world context orgLogin).2 context o.OrgLogin repoName).2
    context [⟨r.OrgLogin, r.RepoName, int64 issueNumber, pipeline⟩]).1 <;>
  cases hI : (h.cache.ReadIssue (h.store.WriteIssuePipelines
    (h.cache.ReadRepo (h.cache.ReadOrg st.world context orgLogin).2 context o.OrgLogin repoName).2
    context [⟨r.OrgLogin, r.RepoName, int64 issueNumber, pipeline⟩]).2
    context r.OrgLogin r.RepoName issueNumber).1.2 <;>
  simp [callWriteIssuePipelines, callReadIssue, callManageIssue, Errorf, hW, hI]

theorem int64_of_isInt (n : Int) (hn : isInt n) : int64 n = n := by
  unfold isInt at hn
  unfold int64
  rw [Int.emod_eq_of_lt (by omega) (by omega)]
  omega

theorem callsMade_eq (h : handler σ) (st : HState σ) (context : Context)
    (orgLogin repoName : String) (issueNumber : Int) (pipeline : String) (new : List Call)
    (hCalls : (storePipeline h st context orgLogin repoName issueNumber pipeline).calls
      = st.calls ++ new) :
    callsMade h st context orgLogin repoName issueNumber pipeline = new := by
  simp [callsMade, hCalls]

theorem callsMade_org_failed (h : handler σ) (st : HState σ) (context : Context)
    (orgLogin repoName : String) (issueNumber : Int) (pipeline : String)
    (hFail : (h.cache.ReadOrg st.world context orgLogin).1.2 ≠ none
      ∨ (h.cache.ReadOrg st.world context orgLogin).1.1 = none) :
    callsMade h st context orgLogin repoName issueNumber pipeline
      = [Call.ReadOrg context orgLogin] := by
  apply callsMade_eq
  rcases hFail with hE | hNil
  · obtain ⟨e, he⟩ := Option.ne_none_iff_exists'.mp hE
    exact storePipeline_org_error h st context orgLogin repoName issueNumber pipeline e he
  · exact storePipeline_org_absent h st context orgLogin repoName issueNumber pipeline hNil

theorem callsMade_repo_failed (h : handler σ) (st : HState σ) (context : Context)
    (orgLogin repoName : String) (issueNumber : Int) (pipeline : String) (o : Org)
    (hOrg : (h.cache.ReadOrg st.world context orgLogin).1 = (some o, none))
    (hFail : (h.cache.ReadRepo (h.cache.ReadOrg st.world context orgLogin).2 context
        o.OrgLogin repoName).1.2 ≠ none
      ∨ (h.cache.ReadRepo (h.cache.ReadOrg st.world context orgLogin).2 context
        o.OrgLogin repoName).1.1 = none) :
    callsMade h st context orgLogin repoName issueNumber pipeline
      = [Call.ReadOrg context orgLogin, Call.ReadRepo context o.OrgLogin repoName] := by
  apply callsMade_eq
  rcases hFail with hE | hNil
  · obtain ⟨e, he⟩ := Option.ne_none_iff_exists'.mp hE
    exact storePipeline_repo_error h st context orgLogin repoName issueNumber pipeline o e hOrg he
  · exact storePipeline_repo_absent h st context orgLogin repoName issueNumber pipeline o hOrg hNil

theorem callsMade_resolved (h : handler σ) (st : HState σ) (context : Context)
    (orgLogin repoName : String) (issueNumber : Int) (pipeline : String) (o : Org) (r : Repo)
    (hOrg : (h.cache.ReadOrg st.world context orgLogin).1 = (some o, none))
    (hRepo : (h.cache.ReadRepo (h.cache.ReadOrg st.world context orgLogin).2 context
      o.OrgLogin repoName).1 = (some r, none)) :
    callsMade h st context orgLogin repoName issueNumber pipeline
      = [Call.ReadOrg context orgLogin, Call.ReadRepo context o.OrgLogin repoName,
          Call.WriteIssuePipelines context [⟨r.OrgLogin, r.RepoName, int64 issueNumber, pipeline⟩],
          Call.ReadIssue context r.OrgLogin r.RepoName issueNumber,
          Call.ManageIssue context (h.cache.ReadIssue
            (worldAfterWrite h st context orgLogin repoName issueNumber pipeline o r)
            context r.OrgLogin r.RepoName issueNumber).1.1] :=
  callsMade_eq h st context orgLogin repoName issueNumber pipeline _
    (storePipeline_resolved h st context orgLogin repoName issueNumber pipeline o r hOrg hRepo)

/-- Every run of `storePipeline` has one of three shapes. -/
theorem callsMade_cases (h : handler σ) (st : HState σ) (context : Context)
    (orgLogin repoName : String) (issueNumber : Int) (pipeline : String) :
    callsMade h st context orgLogin repoName issueNumber pipeline
        = [Call.ReadOrg context orgLogin]
    ∨ (∃ o : Org, (h.cache.ReadOrg st.world context orgLogin).1 = (some o, none)
        ∧ callsMade h st context orgLogin repoName issueNumber pipeline
          = [Call.ReadOrg context orgLogin, Call.ReadRepo context o.OrgLogin repoName])
    ∨ (∃ (o : Org) (r : Repo) (issue : Option Issue),
        (h.cache.ReadOrg st.world context orgLogin).1 = (some o, none)
        ∧ (h.cache.ReadRepo (h.cache.ReadOrg st.world context orgLogin).2 context
            o.OrgLogin repoName).1 = (some r, none)
        ∧ callsMade h st context orgLogin repoName issueNumber pipeline
          = [Call.ReadOrg context orgLogin, Call.ReadRepo context o.OrgLogin repoName,
              Call.WriteIssuePipelines context
                [⟨r.OrgLogin, r.RepoName, int64 issueNumber, pipeline⟩],
              Call.ReadIssue context r.OrgLogin r.RepoName issueNumber,
              Call.ManageIssue context issue]) := by
  rcases hE : (h.cache.ReadOrg st.world context orgLogin).1.2 with _ | e
  · rcases hO : (h.cache.ReadOrg st.world context orgLogin).1.1 with _ | o
    · exact Or.inl (callsMade_org_failed h st context orgLogin repoName issueNumber pipeline
        (Or.inr hO))
    · have hOrg : (h.cache.ReadOrg st.world context orgLogin).1 = (some o, none) :=
        Prod.ext hO hE
      right
      rcases hE2 : (h.cache.ReadRepo (h.cache.ReadOrg st.world context orgLogin).2 context
        o.OrgLogin repoName).1.2 with _ | e2
      · rcases hR : (h.cache.ReadRepo (h.cache.ReadOrg st.world context orgLogin).2 context
          o.OrgLogin repoName).1.1 with _ | r
        · exact Or.inl ⟨o, hOrg, callsMade_repo_failed h st context orgLogin repoName
            issueNumber pipeline o hOrg (Or.inr hR)⟩
        · have hRepo : (h.cache.ReadRepo (h.cache.ReadOrg st.world context orgLogin).2 context
              o.OrgLogin repoName).1 = (some r, none) := Prod.ext hR hE2
          exact Or.inr ⟨o, r, _, hOrg, hRepo, callsMade_resolved h st context orgLogin repoName
            issueNumber pipeline o r hOrg hRepo⟩
      · exact Or.inl ⟨o, hOrg, callsMade_repo_failed h st context orgLogin repoName
          issueNumber pipeline o hOrg (Or.inl (by simp [hE2]))⟩
  · exact Or.inl (callsMade_org_failed h st context orgLogin repoName issueNumber pipeline
      (Or.inl (by simp [hE])))

/-! ## Properties of `storePipeline` and `ServeHTTP` -/

/-- C1: when `ReadOrg` returns an organization without error and `ReadRepo` returns a
repository `r` without error, `storePipeline` calls `WriteIssuePipelines` exactly once,
with a batch of exactly one record, whose organization and repository are those of the
resolved repository `r` (not the raw arguments) and whose issue number and pipeline are
the arguments of the call. -/
theorem storePipeline_writes_resolved_record (h : handler σ) (st : HState σ) (context : Context)
    (orgLogin repoName : String) (issueNumber : Int) (pipeline : String) (o : Org) (r : Repo)
    (hInt : isInt issueNumber)
    (hOrg : (h.cache.ReadOrg st.world context orgLogin).1 = (some o, none))
    (hRepo : (h.cache.ReadRepo (h.cache.ReadOrg st.world context orgLogin).2 context
      o.OrgLogin repoName).1 = (some r, none)) :
    callsOf Kind.WriteIssuePipelines
        (callsMade h st context orgLogin repoName issueNumber pipeline)
      = [Call.WriteIssuePipelines context [⟨r.OrgLogin, r.RepoName, issueNumber, pipeline⟩]] := by
  rw [callsMade_resolved h st context orgLogin repoName issueNumber pipeline o r hOrg hRepo,
    int64_of_isInt issueNumber hInt]
  simp [callsOf, Call.kind]

/-- Witness for C1: organization=Istio, repo=Bots, issue 42, pipeline Done, with the cache
resolving to istio/bots, writes the single record (istio, bots, 42, Done). -/
theorem storePipeline_writes_resolved_record_witness :
    isInt 42
    ∧ (demoHandler.cache.ReadOrg demoState.world demoCtx "Istio").1 = (some ⟨"istio"⟩, none)
    ∧ (demoHandler.cache.ReadRepo (demoHandler.cache.ReadOrg demoState.world demoCtx "Istio").2
        demoCtx "istio" "Bots").1 = (some ⟨"istio", "bots"⟩, none)
    ∧ callsOf Kind.WriteIssuePipelines (callsMade demoHandler demoState demoCtx "Istio" "Bots" 42 "Done")
      = [Call.WriteIssuePipelines demoCtx [⟨"istio", "bots", 42, "Done"⟩]] :=
  ⟨by decide, by decide, by decide,
    storePipeline_writes_resolved_record demoHandler demoState demoCtx "Istio" "Bots" 42 "Done"
      ⟨"istio"⟩ ⟨"istio", "bots"⟩ (by decide) (by decide) (by decide)⟩

/-- C2: when `ReadOrg` returns an error, or no organization, `storePipeline` makes the
`ReadOrg` call and no other collaborator call: no `ReadRepo`, no `WriteIssuePipelines`,
no `ReadIssue`, no `ManageIssue`. -/
theorem storePipeline_aborts_without_org (h : handler σ) (st : HState σ) (context : Context)
    (orgLogin repoName : String) (issueNumber : Int) (pipeline : String)
    (hFail : (h.cache.ReadOrg st.world context orgLogin).1.2 ≠ none
      ∨ (h.cache.ReadOrg st.world context orgLogin).1.1 = none) :
    callsMade h st context orgLogin repoName issueNumber pipeline
        = [Call.ReadOrg context orgLogin]
    ∧ callsOf Kind.ReadRepo (callsMade h st context orgLogin repoName issueNumber pipeline) = []
    ∧ callsOf Kind.WriteIssuePipelines
        (callsMade h st context orgLogin repoName issueNumber pipeline) = []
    ∧ callsOf Kind.ReadIssue (callsMade h st context orgLogin repoName issueNumber pipeline) = []
    ∧ callsOf Kind.ManageIssue
        (callsMade h st context orgLogin repoName issueNumber pipeline) = [] := by
  rw [callsMade_org_failed h st context orgLogin repoName issueNumber pipeline hFail]
  simp [callsOf, Call.kind]

/-- Witness for C2: the organization `nobody` is absent from the cache. -/
theorem storePipeline_aborts_without_org_witness :
    ((demoHandler.cache.ReadOrg demoState.world demoCtx "nobody").1.2 ≠ none
      ∨ (demoHandler.cache.ReadOrg demoState.world demoCtx "nobody").1.1 = none)
    ∧ callsMade demoHandler demoState demoCtx "nobody" "Bots" 42 "Done"
        = [Call.ReadOrg demoCtx "nobody"] :=
  ⟨by decide,
    (storePipeline_aborts_without_org demoHandler demoState demoCtx "nobody" "Bots" 42 "Done"
      (by decide)).1⟩

/-- C3: when the organization resolves but `ReadRepo` returns an error, or no repository,
`storePipeline` makes no `WriteIssuePipelines`, no `ReadIssue` and no `ManageIssue` call:
its calls are `ReadOrg` and `ReadRepo` only. -/
theorem storePipeline_aborts_without_repo (h : handler σ) (st : HState σ) (context : Context)
    (orgLogin repoName : String) (issueNumber : Int) (pipeline : String) (o : Org)
    (hOrg : (h.cache.ReadOrg st.world context orgLogin).1 = (some o, none))
    (hFail : (h.cache.ReadRepo (h.cache.ReadOrg st.world context orgLogin).2 context
        o.OrgLogin repoName).1.2 ≠ none
      ∨ (h.cache.ReadRepo (h.cache.ReadOrg st.world context orgLogin).2 context
        o.OrgLogin repoName).1.1 = none) :
    callsMade h st context orgLogin repoName issueNumber pipeline
        = [Call.ReadOrg context orgLogin, Call.ReadRepo context o.OrgLogin repoName]
    ∧ callsOf Kind.WriteIssuePipelines
        (callsMade h st context orgLogin repoName issueNumber pipeline) = []
    ∧ callsOf Kind.ReadIssue (callsMade h st context orgLogin repoName issueNumber pipeline) = []
    ∧ callsOf Kind.ManageIssue
        (callsMade h st context orgLogin repoName issueNumber pipeline) = [] := by
  rw [callsMade_repo_failed h st context orgLogin repoName issueNumber pipeline o hOrg hFail]
  simp [callsOf, Call.kind]

/-- Witness for C3: the cache fails on the repository `down` of organization `istio`. -/
theorem storePipeline_aborts_without_repo_witness :
    (demoHandler.cache.ReadOrg demoState.world demoCtx "Istio").1 = (some ⟨"istio"⟩, none)
    ∧ ((demoHandler.cache.ReadRepo (demoHandler.cache.ReadOrg demoState.world demoCtx "Istio").2
          demoCtx "istio" "down").1.2 ≠ none
      ∨ (demoHandler.cache.ReadRepo (demoHandler.cache.ReadOrg demoState.world demoCtx "Istio").2
          demoCtx "istio" "down").1.1 = none)
    ∧ callsMade demoHandler demoState demoCtx "Istio" "down" 42 "Done"
        = [Call.ReadOrg demoCtx "Istio", Call.ReadRepo demoCtx "istio" "down"] :=
  ⟨by decide, by decide,
    (storePipeline_aborts_without_repo demoHandler demoState demoCtx "Istio" "down" 42 "Done"
      ⟨"istio"⟩ (by decide) (by decide)).1⟩

theorem callsOf_ReadOrg_callsMade (h : handler σ) (st : HState σ) (context : Context)
    (orgLogin repoName : String) (issueNumber : Int) (pipeline : String) :
    callsOf Kind.ReadOrg (callsMade h st context orgLogin repoName issueNumber pipeline)
      = [Call.ReadOrg context orgLogin] := by
  rcases callsMade_cases h st context orgLogin repoName issueNumber pipeline with
    hc | ⟨o, _, hc⟩ | ⟨o, r, issue, _, _, hc⟩ <;>
  · rw [hc]; simp [callsOf, Call.kind]

theorem callsServed_eq_callsMade (h : handler σ) (st : HState σ) (r : Request) (form : Values)
    (hParse : r.ParseForm = Except.ok form)
    (hType : form.Get "type" = "issue_transfer" ∨ form.Get "type" = "issue_reprioritized") :
    callsServed h st r
      = callsMade h (Infof st ("Received " ++ form.Get "type" ++ " from ZenHub")) r.Context
          (form.Get "organization") (form.Get "repo") (Atoi (form.Get "issue_number")).1
          (form.Get "to_pipeline_name") := by
  simp [callsServed, callsMade, ServeHTTP, hParse, hType, Infof]

/-- C4: for a successfully parsed request, if the form field `type` is neither
`issue_transfer` nor `issue_reprioritized` (an absent field reads as the empty string),
`ServeHTTP` does nothing: the state is unchanged and no collaborator is called. If it is
one of the two, `ServeHTTP` is one run of `storePipeline` on the extracted fields (after
one info log line), hence exactly one `ReadOrg` call starts the pipeline. -/
theorem ServeHTTP_dispatch (h : handler σ) (st : HState σ) (r : Request) (form : Values)
    (hParse : r.ParseForm = Except.ok form) :
    ((form.Get "type" ≠ "issue_transfer" ∧ form.Get "type" ≠ "issue_reprioritized") →
      ServeHTTP h st r = st ∧ callsServed h st r = [])
    ∧ ((form.Get "type" = "issue_transfer" ∨ form.Get "type" = "issue_reprioritized") →
      ServeHTTP h st r
        = storePipeline h (Infof st ("Received " ++ form.Get "type" ++ " from ZenHub")) r.Context
            (form.Get "organization") (form.Get "repo") (Atoi (form.Get "issue_number")).1
            (form.Get "to_pipeline_name")
      ∧ callsOf Kind.ReadOrg (callsServed h st r)
        = [Call.ReadOrg r.Context (form.Get "organization")]) := by
  constructor
  · rintro ⟨h1, h2⟩
    have hS : ServeHTTP h st r = st := by simp [ServeHTTP, hParse, h1, h2]
    exact ⟨hS, by simp [callsServed, hS]⟩
  · intro hType
    refine ⟨by simp [ServeHTTP, hParse, hType], ?_⟩
    rw [callsServed_eq_callsMade h st r form hParse hType]
    exact callsOf_ReadOrg_callsMade _ _ _ _ _ _ _

/-- Witness for C4: `type=issue_closed` gives zero collaborator calls, and
`type=issue_transfer` runs the pipeline. -/
theorem ServeHTTP_dispatch_witness :
    (demoRequest "issue_closed" "42").ParseForm = Except.ok (demoForm "issue_closed" "42")
    ∧ callsServed demoHandler demoState (demoRequest "issue_closed" "42") = []
    ∧ callsOf Kind.ReadOrg (callsServed demoHandler demoState (demoRequest "issue_transfer" "42"))
        = [Call.ReadOrg demoCtx "Istio"] :=
  ⟨rfl,
    ((ServeHTTP_dispatch demoHandler demoState (demoRequest "issue_closed" "42")
      (demoForm "issue_closed" "42") rfl).1 (by decide)).2,
    ((ServeHTTP_dispatch demoHandler demoState (demoRequest "issue_transfer" "42")
      (demoForm "issue_transfer" "42") rfl).2 (by decide)).2⟩

/-- C5: when organization and repository resolve, the result of `WriteIssuePipelines`
has no influence on the rest of the run. For any two stores `s1` and `s2` (succeeding or
failing, in any way) the runs agree up to and including the `ReadIssue` call; in each run
the write is followed by exactly one `ReadIssue` and then exactly one `ManageIssue`, the
latter on the issue that `ReadIssue` returned; and if the two stores differ in the
returned error only (same effect on the world), the two runs make the same calls with the
same arguments. -/
theorem storePipeline_ignores_write_result (h : handler σ) (s1 s2 : Store σ) (st : HState σ)
    (context : Context) (orgLogin repoName : String) (issueNumber : Int) (pipeline : String)
    (o : Org) (r : Repo)
    (hOrg : (h.cache.ReadOrg st.world context orgLogin).1 = (some o, none))
    (hRepo : (h.cache.ReadRepo (h.cache.ReadOrg st.world context orgLogin).2 context
      o.OrgLogin repoName).1 = (some r, none)) :
    (callsMade (withStore h s1) st context orgLogin repoName issueNumber pipeline).take 4
      = (callsMade (withStore h s2) st context orgLogin repoName issueNumber pipeline).take 4
    ∧ (∀ s : Store σ,
        (callsMade (withStore h s) st context orgLogin repoName issueNumber pipeline).drop 3
        = [Call.ReadIssue context r.OrgLogin r.RepoName issueNumber,
           Call.ManageIssue context (h.cache.ReadIssue
              (worldAfterWrite (withStore h s) st context orgLogin repoName issueNumber
                pipeline o r)
              context r.OrgLogin r.RepoName issueNumber).1.1])
    ∧ ((∀ w ctx batch, (s1.WriteIssuePipelines w ctx batch).2
          = (s2.WriteIssuePipelines w ctx batch).2) →
        callsMade (withStore h s1) st context orgLogin repoName issueNumber pipeline
        = callsMade (withStore h s2) st context orgLogin repoName issueNumber pipeline) := by
  have hAll : ∀ s : Store σ,
      callsMade (withStore h s) st context orgLogin repoName issueNumber pipeline
      = [Call.ReadOrg context orgLogin, Call.ReadRepo context o.OrgLogin repoName,
          Call.WriteIssuePipelines context [⟨r.OrgLogin, r.RepoName, int64 issueNumber, pipeline⟩],
          Call.ReadIssue context r.OrgLogin r.RepoName issueNumber,
          Call.ManageIssue context (h.cache.ReadIssue
            (worldAfterWrite (withStore h s) st context orgLogin repoName issueNumber
              pipeline o r)
            context r.OrgLogin r.RepoName issueNumber).1.1] := fun s =>
    callsMade_resolved (withStore h s) st context orgLogin repoName issueNumber pipeline o r
      hOrg hRepo
  refine ⟨?_, ?_, ?_⟩
  · rw [hAll s1, hAll s2]; rfl
  · intro s
    rw [hAll s]; rfl
  · intro hSame
    have hw : worldAfterWrite (withStore h s1) st context orgLogin repoName issueNumber
        pipeline o r
        = worldAfterWrite (withStore h s2) st context orgLogin repoName issueNumber
        pipeline o r := hSame _ _ _
    rw [hAll s1, hAll s2, hw]

/-- Witness for C5: the write succeeds in one run and fails with `disk full` in the other. -/
theorem storePipeline_ignores_write_result_witness :
    (demoHandler.cache.ReadOrg demoState.world demoCtx "Istio").1 = (some ⟨"istio"⟩, none)
    ∧ (demoHandler.cache.ReadRepo (demoHandler.cache.ReadOrg demoState.world demoCtx "Istio").2
        demoCtx "istio" "Bots").1 = (some ⟨"istio", "bots"⟩, none)
    ∧ (demoStore.WriteIssuePipelines [] demoCtx [⟨"istio", "bots", 42, "Done"⟩]).1 = none
    ∧ (lossyStore.WriteIssuePipelines [] demoCtx [⟨"istio", "bots", 42, "Done"⟩]).1
        = some ⟨"disk full"⟩
    ∧ callsMade (withStore demoHandler demoStore) demoState demoCtx "Istio" "Bots" 42 "Done"
      = callsMade (withStore demoHandler lossyStore) demoState demoCtx "Istio" "Bots" 42 "Done" :=
  ⟨by decide, by decide, by decide, by decide,
    (storePipeline_ignores_write_result demoHandler demoStore lossyStore demoState demoCtx
      "Istio" "Bots" 42 "Done" ⟨"istio"⟩ ⟨"istio", "bots"⟩ (by decide) (by decide)).2.2
      (fun _ _ _ => rfl)⟩

/-- C7: when organization and repository resolve, `ManageIssue` is called exactly once, and
its issue argument is the issue value `issue` that `ReadIssue` returned, whether found or
nil and whatever error `err` came with it. -/
theorem storePipeline_manages_read_issue (h : handler σ) (st : HState σ) (context : Context)
    (orgLogin repoName : String) (issueNumber : Int) (pipeline : String) (o : Org) (r : Repo)
    (issue : Option Issue) (err : Option GoError)
    (hOrg : (h.cache.ReadOrg st.world context orgLogin).1 = (some o, none))
    (hRepo : (h.cache.ReadRepo (h.cache.ReadOrg st.world context orgLogin).2 context
      o.OrgLogin repoName).1 = (some r, none))
    (hIssue : (h.cache.ReadIssue
        (worldAfterWrite h st context orgLogin repoName issueNumber pipeline o r)
        context r.OrgLogin r.RepoName issueNumber).1 = (issue, err)) :
    callsOf Kind.ManageIssue (callsMade h st context orgLogin repoName issueNumber pipeline)
      = [Call.ManageIssue context issue] := by
  rw [callsMade_resolved h st context orgLogin repoName issueNumber pipeline o r hOrg hRepo,
    hIssue]
  simp [callsOf, Call.kind]

/-- Witness for C7: the issue lookup returns a stale issue together with an error, and
that issue is handed to `ManageIssue`. -/
theorem storePipeline_manages_read_issue_witness :
    (flakyHandler.cache.ReadOrg demoState.world demoCtx "Istio").1 = (some ⟨"istio"⟩, none)
    ∧ (flakyHandler.cache.ReadRepo (flakyHandler.cache.ReadOrg demoState.world demoCtx "Istio").2
        demoCtx "istio" "Bots").1 = (some ⟨"istio", "bots"⟩, none)
    ∧ (flakyHandler.cache.ReadIssue
        (worldAfterWrite flakyHandler demoState demoCtx "Istio" "Bots" 9 "Done" ⟨"istio"⟩
          ⟨"istio", "bots"⟩) demoCtx "istio" "bots" 9).1
        = (some ⟨"istio", "bots", 9⟩, some ⟨"stale"⟩)
    ∧ callsOf Kind.ManageIssue (callsMade flakyHandler demoState demoCtx "Istio" "Bots" 9 "Done")
      = [Call.ManageIssue demoCtx (some ⟨"istio", "bots", 9⟩)] :=
  ⟨by decide, by decide, by decide,
    storePipeline_manages_read_issue flakyHandler demoState demoCtx "Istio" "Bots" 9 "Done"
      ⟨"istio"⟩ ⟨"istio", "bots"⟩ (some ⟨"istio", "bots", 9⟩) (some ⟨"stale"⟩)
      (by decide) (by decide) (by decide)⟩

/-- C8: the lookups after the first are keyed by the identifiers of the entity resolved
just before: for a resolved organization `o`, `ReadRepo` is called (once) with `o.OrgLogin`
and the raw repository name; for a resolved repository `r`, `ReadIssue` is called (once)
with `r.OrgLogin`, `r.RepoName` and the issue number, which is the number stored in the
written record. -/
theorem storePipeline_lookup_keys (h : handler σ) (st : HState σ) (context : Context)
    (orgLogin repoName : String) (issueNumber : Int) (pipeline : String) (o : Org)
    (hInt : isInt issueNumber)
    (hOrg : (h.cache.ReadOrg st.world context orgLogin).1 = (some o, none)) :
    callsOf Kind.ReadRepo (callsMade h st context orgLogin repoName issueNumber pipeline)
      = [Call.ReadRepo context o.OrgLogin repoName]
    ∧ ∀ r : Repo,
      (h.cache.ReadRepo (h.cache.ReadOrg st.world context orgLogin).2 context
        o.OrgLogin repoName).1 = (some r, none) →
      callsOf Kind.ReadIssue (callsMade h st context orgLogin repoName issueNumber pipeline)
        = [Call.ReadIssue context r.OrgLogin r.RepoName issueNumber]
      ∧ writtenBatches (callsMade h st context orgLogin repoName issueNumber pipeline)
        = [[⟨r.OrgLogin, r.RepoName, issueNumber, pipeline⟩]] := by
  constructor
  · rcases callsMade_cases h st context orgLogin repoName issueNumber pipeline with
      hc | ⟨o2, hO2, hc⟩ | ⟨o2, r, issue, hO2, _, hc⟩
    · exfalso
      rcases hE : (h.cache.ReadRepo (h.cache.ReadOrg st.world context orgLogin).2 context
        o.OrgLogin repoName).1.2 with _ | e
      · rcases hR : (h.cache.ReadRepo (h.cache.ReadOrg st.world context orgLogin).2 context
          o.OrgLogin repoName).1.1 with _ | r
        · have := callsMade_repo_failed h st context orgLogin repoName issueNumber pipeline o
            hOrg (Or.inr hR)
          rw [hc] at this; simp at this
        · have := callsMade_resolved h st context orgLogin repoName issueNumber pipeline o r
            hOrg (Prod.ext hR hE)
          rw [hc] at this; simp at this
      · have := callsMade_repo_failed h st context orgLogin repoName issueNumber pipeline o
          hOrg (Or.inl (by simp [hE]))
        rw [hc] at this; simp at this
    · have ho : o2 = o := by
        have := hO2.symm.trans hOrg
        simpa using this
      subst ho
      rw [hc]; simp [callsOf, Call.kind]
    · have ho : o2 = o := by
        have := hO2.symm.trans hOrg
        simpa using this
      subst ho
      rw [hc]; simp [callsOf, Call.kind]
  · intro r hRepo
    rw [callsMade_resolved h st context orgLogin repoName issueNumber pipeline o r hOrg hRepo,
      int64_of_isInt issueNumber hInt]
    simp [callsOf, Call.kind, writtenBatches]

/-- Witness for C8: raw Istio/Bots resolves to istio/bots, which key the later lookups. -/
theorem storePipeline_lookup_keys_witness :
    isInt 42
    ∧ (demoHandler.cache.ReadOrg demoState.world demoCtx "Istio").1 = (some ⟨"istio"⟩, none)
    ∧ callsOf Kind.ReadRepo (callsMade demoHandler demoState demoCtx "Istio" "Bots" 42 "Done")
      = [Call.ReadRepo demoCtx "istio" "Bots"]
    ∧ callsOf Kind.ReadIssue (callsMade demoHandler demoState demoCtx "Istio" "Bots" 42 "Done")
      = [Call.ReadIssue demoCtx "istio" "bots" 42] :=
  ⟨by decide, by decide,
    (storePipeline_lookup_keys demoHandler demoState demoCtx "Istio" "Bots" 42 "Done"
      ⟨"istio"⟩ (by decide) (by decide)).1,
    ((storePipeline_lookup_keys demoHandler demoState demoCtx "Istio" "Bots" 42 "Done"
      ⟨"istio"⟩ (by decide) (by decide)).2 ⟨"istio", "bots"⟩ (by decide)).1⟩

/-- C9: the collaborator calls of any run of `storePipeline` are a prefix of the chain
`ReadOrg`, `ReadRepo`, `WriteIssuePipelines`, `ReadIssue`, `ManageIssue`, in that order and
without repetition; when organization and repository resolve, they are the whole chain. -/
theorem storePipeline_calls_follow_chain (h : handler σ) (st : HState σ) (context : Context)
    (orgLogin repoName : String) (issueNumber : Int) (pipeline : String) :
    ((callsMade h st context orgLogin repoName issueNumber pipeline).map Call.kind <+: chain)
    ∧ ((callsMade h st context orgLogin repoName issueNumber pipeline).map Call.kind).Nodup
    ∧ ∀ (o : Org) (r : Repo),
      (h.cache.ReadOrg st.world context orgLogin).1 = (some o, none) →
      (h.cache.ReadRepo (h.cache.ReadOrg st.world context orgLogin).2 context
        o.OrgLogin repoName).1 = (some r, none) →
      (callsMade h st context orgLogin repoName issueNumber pipeline).map Call.kind = chain := by
  refine ⟨?_, ?_, ?_⟩
  · rcases callsMade_cases h st context orgLogin repoName issueNumber pipeline with
      hc | ⟨o, _, hc⟩ | ⟨o, r, issue, _, _, hc⟩
    · rw [hc]
      exact ⟨[Kind.ReadRepo, Kind.WriteIssuePipelines, Kind.ReadIssue, Kind.ManageIssue], rfl⟩
    · rw [hc]
      exact ⟨[Kind.WriteIssuePipelines, Kind.ReadIssue, Kind.ManageIssue], rfl⟩
    · rw [hc]
      exact ⟨[], rfl⟩
  · rcases callsMade_cases h st context orgLogin repoName issueNumber pipeline with
      hc | ⟨o, _, hc⟩ | ⟨o, r, issue, _, _, hc⟩ <;>
    · rw [hc]; simp [Call.kind]
  · intro o r hOrg hRepo
    rw [callsMade_resolved h st context orgLogin repoName issueNumber pipeline o r hOrg hRepo]
    rfl

/-- Witness for C9: a resolving run makes the whole chain of calls. -/
theorem storePipeline_calls_follow_chain_witness :
    (demoHandler.cache.ReadOrg demoState.world demoCtx "Istio").1 = (some ⟨"istio"⟩, none)
    ∧ (demoHandler.cache.ReadRepo (demoHandler.cache.ReadOrg demoState.world demoCtx "Istio").2
        demoCtx "istio" "Bots").1 = (some ⟨"istio", "bots"⟩, none)
    ∧ (callsMade demoHandler demoState demoCtx "Istio" "Bots" 42 "Done").map Call.kind = chain :=
  ⟨by decide, by decide,
    (storePipeline_calls_follow_chain demoHandler demoState demoCtx "Istio" "Bots" 42 "Done").2.2
      ⟨"istio"⟩ ⟨"istio", "bots"⟩ (by decide) (by decide)⟩

/-- C10, as stated, fails: a run in which organization and repository resolve does not make
four collaborator calls of which two are cache reads; it makes five, three on the cache. -/
theorem storePipeline_four_calls_counterexample :
    (demoHandler.cache.ReadOrg demoState.world demoCtx "Istio").1 = (some ⟨"istio"⟩, none)
    ∧ (demoHandler.cache.ReadRepo (demoHandler.cache.ReadOrg demoState.world demoCtx "Istio").2
        demoCtx "istio" "Bots").1 = (some ⟨"istio", "bots"⟩, none)
    ∧ callsMade demoHandler demoState demoCtx "Istio" "Bots" 42 "Done"
      = [Call.ReadOrg demoCtx "Istio", Call.ReadRepo demoCtx "istio" "Bots",
         Call.WriteIssuePipelines demoCtx [⟨"istio", "bots", 42, "Done"⟩],
         Call.ReadIssue demoCtx "istio" "bots" 42,
         Call.ManageIssue demoCtx (some ⟨"istio", "bots", 42⟩)]
    ∧ ¬ ((callsMade demoHandler demoState demoCtx "Istio" "Bots" 42 "Done").length = 4
        ∧ ((callsMade demoHandler demoState demoCtx "Istio" "Bots" 42 "Done").filter
            Call.onCache).length = 2) := by
  decide

/-- C10, amended: when organization and repository resolve, `storePipeline` makes exactly
five collaborator calls: three cache reads (`ReadOrg`, `ReadRepo`, `ReadIssue`), one store
write and one lifecycle call. -/
theorem storePipeline_five_calls (h : handler σ) (st : HState σ) (context : Context)
    (orgLogin repoName : String) (issueNumber : Int) (pipeline : String) (o : Org) (r : Repo)
    (hOrg : (h.cache.ReadOrg st.world context orgLogin).1 = (some o, none))
    (hRepo : (h.cache.ReadRepo (h.cache.ReadOrg st.world context orgLogin).2 context
      o.OrgLogin repoName).1 = (some r, none)) :
    (callsMade h st context orgLogin repoName issueNumber pipeline).length = 5
    ∧ ((callsMade h st context orgLogin repoName issueNumber pipeline).filter
        Call.onCache).length = 3
    ∧ ((callsMade h st context orgLogin repoName issueNumber pipeline).filter
        Call.onStore).length = 1
    ∧ ((callsMade h st context orgLogin repoName issueNumber pipeline).filter
        Call.onLifecycler).length = 1 := by
  rw [callsMade_resolved h st context orgLogin repoName issueNumber pipeline o r hOrg hRepo]
  simp [Call.onCache, Call.onStore, Call.onLifecycler, Call.kind]

/-- Witness for the amended C10. -/
theorem storePipeline_five_calls_witness :
    (demoHandler.cache.ReadOrg demoState.world demoCtx "Istio").1 = (some ⟨"istio"⟩, none)
    ∧ (demoHandler.cache.ReadRepo (demoHandler.cache.ReadOrg demoState.world demoCtx "Istio").2
        demoCtx "istio" "Bots").1 = (some ⟨"istio", "bots"⟩, none)
    ∧ (callsMade demoHandler demoState demoCtx "Istio" "Bots" 42 "Done").length = 5 :=
  ⟨by decide, by decide,
    (storePipeline_five_calls demoHandler demoState demoCtx "Istio" "Bots" 42 "Done"
      ⟨"istio"⟩ ⟨"istio", "bots"⟩ (by decide) (by decide)).1⟩

/-! ## The issue number handed over by `ServeHTTP` -/

theorem ParseInt_syntax_zero (s0 : String) (b : List Nat) (e : NumError)
    (hErr : (ParseInt s0 b).2 = some e) (hSyn : e.Err = ErrKind.ErrSyntax) :
    (ParseInt s0 b).1 = 0 := by
  unfold ParseInt at hErr ⊢
  dsimp only at hErr ⊢
  split_ifs at hErr ⊢
  all_goals try split at hErr
  all_goals try dsimp only
  all_goals dsimp only at hErr
  all_goals first
    | exact Option.noConfusion hErr
    | (have h2 := Option.some.inj hErr
       rw [← h2] at hSyn
       exact ErrKind.noConfusion hSyn)

theorem Atoi_syntax_zero (s : String) (e : NumError)
    (hErr : (Atoi s).2 = some e) (hSyn : e.Err = ErrKind.ErrSyntax) : (Atoi s).1 = 0 := by
  unfold Atoi at hErr ⊢
  dsimp only at hErr ⊢
  split_ifs at hErr ⊢
  all_goals try split at hErr
  all_goals first
    | rfl
    | (dsimp only at hErr; cases hErr)
    | skip
  simp only [Option.map_eq_some'] at hErr
  obtain ⟨e2, he2, rfl⟩ := hErr
  exact ParseInt_syntax_zero s (bytes s) e2 he2 hSyn

/-- C6, as stated, fails: the decimal string 9223372036854775808 is rejected by
`strconv.Atoi` with an error (out of range), yet the number handed to `storePipeline` and
stored in the record is 9223372036854775807, not 0. -/
theorem ServeHTTP_unparsable_issue_counterexample :
    (Atoi "9223372036854775808").2
      = some ⟨"Atoi", "9223372036854775808", ErrKind.ErrRange⟩
    ∧ (Atoi "9223372036854775808").1 ≠ 0
    ∧ writtenBatches (callsServed demoHandler demoState
        (demoRequest "issue_transfer" "9223372036854775808"))
      = [[⟨"istio", "bots", 9223372036854775807, "Done"⟩]] := by
  decide

/-- C6, amended: for a qualifying event whose `issue_number` field `strconv.Atoi` rejects
with a syntax error (such as `abc` or the empty or absent field), `ServeHTTP` does not fail:
it is one run of `storePipeline` with issue number 0, so that the record written when
organization and repository resolve has issue number 0. -/
theorem ServeHTTP_syntax_error_issue_zero (h : handler σ) (st : HState σ) (r : Request)
    (form : Values) (e : NumError)
    (hParse : r.ParseForm = Except.ok form)
    (hType : form.Get "type" = "issue_transfer" ∨ form.Get "type" = "issue_reprioritized")
    (hErr : (Atoi (form.Get "issue_number")).2 = some e)
    (hSyn : e.Err = ErrKind.ErrSyntax) :
    ServeHTTP h st r
      = storePipeline h (Infof st ("Received " ++ form.Get "type" ++ " from ZenHub")) r.Context
          (form.Get "organization") (form.Get "repo") 0 (form.Get "to_pipeline_name")
    ∧ ∀ (o : Org) (rp : Repo),
      (h.cache.ReadOrg st.world r.Context (form.Get "organization")).1 = (some o, none) →
      (h.cache.ReadRepo (h.cache.ReadOrg st.world r.Context (form.Get "organization")).2
        r.Context o.OrgLogin (form.Get "repo")).1 = (some rp, none) →
      writtenBatches (callsServed h st r)
        = [[⟨rp.OrgLogin, rp.RepoName, 0, form.Get "to_pipeline_name"⟩]] := by
  have hZero : (Atoi (form.Get "issue_number")).1 = 0 :=
    Atoi_syntax_zero (form.Get "issue_number") e hErr hSyn
  constructor
  · simp [ServeHTTP, hParse, hType, hZero]
  · intro o rp hOrg hRepo
    rw [callsServed_eq_callsMade h st r form hParse hType, hZero,
      callsMade_resolved h (Infof st ("Received " ++ form.Get "type" ++ " from ZenHub"))
        r.Context (form.Get "organization") (form.Get "repo") 0
        (form.Get "to_pipeline_name") o rp hOrg hRepo,
      int64_of_isInt 0 (by decide)]
    simp [writtenBatches]

/-- Witness for the amended C6: `issue_number=abc` gives issue number 0 in the record. -/
theorem ServeHTTP_syntax_error_issue_zero_witness :
    (Atoi ((demoForm "issue_transfer" "abc").Get "issue_number")).2
      = some ⟨"Atoi", "abc", ErrKind.ErrSyntax⟩
    ∧ writtenBatches (callsServed demoHandler demoState (demoRequest "issue_transfer" "abc"))
      = [[⟨"istio", "bots", 0, "Done"⟩]] :=
  ⟨by decide,
    (ServeHTTP_syntax_error_issue_zero demoHandler demoState (demoRequest "issue_transfer" "abc")
      (demoForm "issue_transfer" "abc") ⟨"Atoi", "abc", ErrKind.ErrSyntax⟩ rfl (by decide)
      (by decide) rfl).2 ⟨"istio"⟩ ⟨"istio", "bots"⟩ (by decide) (by decide)⟩

end Zenhubwebhook
